import Mathlib

/-
Verification of textblob/base.py: the abstract base classes that define the
plugin contracts of the TextBlob text-analysis toolkit. The file embeds the
two stateful or behaviorally interesting contracts shallowly in Lean:

  - BaseTokenizer with its eager tokenize method and the default lazy
    itokenize wrapper `return (t for t in self.tokenize(text, *args, **kwargs))`;
  - BaseSentimentAnalyzer with the kind class attribute (DISCRETE or
    CONTINUOUS), the _trained instance flag set in __init__, the train method
    that sets the flag, and the lazy-training analyze body.

Python generators are modelled as a cursor over a list of pending elements
(PyGen) with a step function next; per the Python language reference, the
iterable expression in the leftmost for clause of a generator expression is
evaluated immediately when the expression itself is evaluated, so the
tokenize call inside itokenize runs eagerly at generator-creation time. The
traced variants (itokenizeTr, nextTr) record token-computation and
token-yield events so that claims about evaluation timing can be stated.
-/

namespace TextblobBase

/-- Event in the evaluation trace of the tokenizer: either a token was
computed by the eager tokenize call, or a token was handed to the consumer
by the generator. -/
inductive Ev
  | computeTok (t : String)
  | yieldTok (t : String)
  deriving DecidableEq, Repr

/-- A Python generator over already-known elements: the cursor state is the
list of elements not yet handed out. Requesting the next element removes the
head; an exhausted generator has no elements left and can never produce one
again, which makes the sequence single-pass and non-restartable. -/
structure PyGen (α : Type) where
  remaining : List α
  deriving DecidableEq, Repr

/-- One consumer request on a generator: either the generator is exhausted
and reports none, or it hands out exactly the head element and suspends with
the tail as its new state. -/
def PyGen.next {α : Type} : PyGen α → Option (α × PyGen α)
  | ⟨[]⟩ => none
  | ⟨t :: ts⟩ => some (t, ⟨ts⟩)

/-- Repeatedly request elements from a generator, at most fuel times,
collecting everything produced. -/
def PyGen.drain {α : Type} : Nat → PyGen α → List α
  | 0, _ => []
  | Nat.succ n, g =>
    match PyGen.next g with
    | none => []
    | some (t, g2) => t :: PyGen.drain n g2

/-- Materialize a generator into a list by requesting elements until it is
exhausted (enough fuel is provided to reach exhaustion). -/
def PyGen.materialize {α : Type} (g : PyGen α) : List α :=
  PyGen.drain g.remaining.length g

/-- One traced consumer request: same result as next, together with the
list of yield events it caused. A successful request yields exactly one
token; a request on an exhausted generator yields nothing. -/
def PyGen.nextTr (g : PyGen String) : Option (String × PyGen String) × List Ev :=
  match PyGen.next g with
  | none => (none, [])
  | some (t, g2) => (some (t, g2), [Ev.yieldTok t])

/-- BaseTokenizer from textblob/base.py. Its abstract method tokenize is
modelled as an arbitrary function field; α stands for the extra
positional/keyword arguments *args, **kwargs of a concrete tokenizer. -/
structure BaseTokenizer (α : Type) where
  tokenize : String → α → List String

/-- BaseTokenizer.itokenize: `return (t for t in self.tokenize(text, *args,
**kwargs))`. The generator expression turns the eagerly computed token list
into a PyGen whose pending elements are exactly those tokens; the extra
arguments are passed through to tokenize unchanged. -/
def BaseTokenizer.itokenize {α : Type} (self : BaseTokenizer α) (text : String)
    (args : α) : PyGen String :=
  ⟨self.tokenize text args⟩

/-- Traced BaseTokenizer.itokenize: the same generator, paired with the
computation events that occur during the itokenize call itself. Because the
iterable of the leftmost for clause of a generator expression is evaluated
immediately, the full tokenize call runs at creation time, so one computeTok
event per token is emitted before the generator is returned. -/
def BaseTokenizer.itokenizeTr {α : Type} (self : BaseTokenizer α) (text : String)
    (args : α) : PyGen String × List Ev :=
  (⟨self.tokenize text args⟩, (self.tokenize text args).map Ev.computeTok)

/-- The two analyzer-kind discriminant constants of textblob/base.py. -/
def DISCRETE : String := "ds"

/-- CONTINUOUS analyzer-kind constant. -/
def CONTINUOUS : String := "co"

/-- BaseSentimentAnalyzer from textblob/base.py. The observable state of an
instance: the _trained flag set by __init__ and train, the kind attribute
resolved on the instance (class attribute DISCRETE unless a subclass
overrides it), and ext, the subclass-owned rest of the instance state,
which the base class never touches. -/
structure BaseSentimentAnalyzer (β : Type) where
  _trained : Bool
  kind : String
  ext : β
  deriving Repr

/-- Python attribute lookup for the class-level kind attribute: a subclass
that declares its own kind uses that value, any other analyzer falls back to
the value DISCRETE declared on BaseSentimentAnalyzer. -/
def kindLookup (override : Option String) : String :=
  override.getD DISCRETE

/-- BaseSentimentAnalyzer.__init__: sets self._trained = False and nothing
else; the kind attribute stays the class-level default and the
subclass-owned state b is whatever the subclass set up. -/
def BaseSentimentAnalyzer.init {β : Type} (b : β) : BaseSentimentAnalyzer β :=
  { _trained := false, kind := DISCRETE, ext := b }

/-- BaseSentimentAnalyzer.train: sets self._trained = True; the base
implementation does nothing else. -/
def BaseSentimentAnalyzer.train {β : Type} (s : BaseSentimentAnalyzer β) :
    BaseSentimentAnalyzer β :=
  { s with _trained := true }

/-- Body of BaseSentimentAnalyzer.analyze: lazily train the classifier when
the flag is unset, then return the analysis result, which in the base class
is None. -/
def BaseSentimentAnalyzer.analyze {β : Type} (s : BaseSentimentAnalyzer β) :
    BaseSentimentAnalyzer β × Option Unit :=
  (if s._trained then s else s.train, none)

/-- Instrumented analyze step: the same state transition as analyze, threaded
with a counter that is incremented exactly when the train call happens, the
side-effect counter of a test double. -/
def BaseSentimentAnalyzer.analyzeCount {β : Type}
    (p : BaseSentimentAnalyzer β × Nat) : BaseSentimentAnalyzer β × Nat :=
  if p.1._trained then p else (p.1.train, p.2 + 1)

/-- n successive analyze calls on an instrumented instance. -/
def BaseSentimentAnalyzer.analyzeN {β : Type} :
    Nat → BaseSentimentAnalyzer β × Nat → BaseSentimentAnalyzer β × Nat
  | 0, p => p
  | Nat.succ n, p => BaseSentimentAnalyzer.analyzeN n (BaseSentimentAnalyzer.analyzeCount p)

/-- Analyze against a possibly failing train override. The override tr
either returns the trained state or raises; a raise carries the exception
value together with the instance state at raise time, because Python
exceptions do not roll back mutations. The analyze body wraps the train call
in no handler, so the raise propagates unchanged, and analyze itself never
writes the flag. -/
def BaseSentimentAnalyzer.analyzeE {β ε : Type}
    (tr : BaseSentimentAnalyzer β → Except (ε × BaseSentimentAnalyzer β) (BaseSentimentAnalyzer β))
    (s : BaseSentimentAnalyzer β) :
    Except (ε × BaseSentimentAnalyzer β) (BaseSentimentAnalyzer β × Option Unit) :=
  if s._trained then Except.ok (s, none)
  else
    match tr s with
    | Except.error es => Except.error es
    | Except.ok s2 => Except.ok (s2, none)

/-- The operations of the BaseSentimentAnalyzer contract. -/
inductive Op
  | train
  | analyze

/-- Apply one contract operation to an instance. -/
def Op.apply {β : Type} : Op → BaseSentimentAnalyzer β → BaseSentimentAnalyzer β
  | Op.train, s => s.train
  | Op.analyze, s => (s.analyze).1

/-- Run a sequence of contract operations. -/
def runOps {β : Type} : List Op → BaseSentimentAnalyzer β → BaseSentimentAnalyzer β
  | [], s => s
  | op :: ops, s => runOps ops (op.apply s)

/-- Splitting a character list at spaces, keeping empty chunks. -/
def wsSplit : List Char → List (List Char)
  | [] => [[]]
  | c :: cs =>
    let rest := wsSplit cs
    if c = ' ' then [] :: rest
    else
      match rest with
      | [] => [[c]]
      | w :: ws => (c :: w) :: ws

/-- Test-double whitespace tokenization: split on spaces and drop empty
fragments, so the empty string tokenizes to the empty list. -/
def wsTokenize (text : String) : List String :=
  ((wsSplit text.data).filter (fun w => w ≠ [])).map (fun w => String.mk w)

/-- Concrete test-double tokenizer splitting on whitespace, taking no extra
arguments. -/
def wsTokenizer : BaseTokenizer Unit :=
  ⟨fun text _ => wsTokenize text⟩

/-- Test-double train override that always raises with exception value
"training failed", mutating nothing before the raise. -/
def trFail {β : Type} :
    BaseSentimentAnalyzer β → Except (String × BaseSentimentAnalyzer β) (BaseSentimentAnalyzer β) :=
  fun s => Except.error ("training failed", s)

theorem drain_self {α : Type} : ∀ l : List α, PyGen.drain l.length (PyGen.mk l) = l
  | [] => rfl
  | t :: ts => congrArg (fun x => t :: x) (drain_self ts)

theorem materialize_mk {α : Type} (l : List α) : (PyGen.mk l).materialize = l :=
  drain_self l

theorem next_some {α : Type} {g : PyGen α} {t : α} {g2 : PyGen α}
    (h : PyGen.next g = some (t, g2)) : g.remaining = t :: g2.remaining := by
  obtain ⟨l⟩ := g
  cases l with
  | nil => simp [PyGen.next] at h
  | cons a as =>
    simp [PyGen.next] at h
    obtain ⟨h1, h2⟩ := h
    subst h1
    subst h2
    rfl

/-- C1: for every tokenizer using the default itokenize, every text and any
extra arguments, materializing the generator returned by itokenize yields
exactly the list returned by tokenize with the same arguments, and whenever
tokenize maps the empty string to the empty list, itokenize on the empty
string materializes to the empty list rather than failing. -/
theorem itokenize_materializes_to_tokenize {α : Type} (tk : BaseTokenizer α)
    (text : String) (args : α) (h : tk.tokenize "" args = []) :
    (tk.itokenize text args).materialize = tk.tokenize text args
      ∧ (tk.itokenize "" args).materialize = [] := by
  refine ⟨materialize_mk _, ?_⟩
  show (PyGen.mk (tk.tokenize "" args)).materialize = []
  rw [h]
  exact materialize_mk []

/-- Witness for C1: the whitespace test double on "the quick fox" and on the
empty string. -/
theorem itokenize_materializes_to_tokenize_witness :
    wsTokenizer.tokenize "" () = []
      ∧ ((wsTokenizer.itokenize "the quick fox" ()).materialize
            = wsTokenizer.tokenize "the quick fox" ()
          ∧ (wsTokenizer.itokenize "" ()).materialize = []) :=
  ⟨by decide, itokenize_materializes_to_tokenize wsTokenizer "the quick fox" () (by decide)⟩

/-- C5: train is idempotent: after one call the flag is set, a second call
succeeds, changes nothing further and leaves the flag set; and train may be
called eagerly ahead of analyze, in which case analyze skips training. -/
theorem train_idempotent {β : Type} (s : BaseSentimentAnalyzer β) (c : Nat) :
    (s.train)._trained = true
      ∧ s.train.train = s.train
      ∧ (s.train.train)._trained = true
      ∧ BaseSentimentAnalyzer.analyzeCount (s.train, c) = (s.train, c) :=
  ⟨rfl, rfl, rfl, rfl⟩

/-- C7: the class-level kind attribute of BaseSentimentAnalyzer is DISCRETE,
an analyzer that does not override it resolves kind to DISCRETE (both via
attribute lookup and on a freshly constructed instance), and that default is
one of the two enumeration values DISCRETE and CONTINUOUS. -/
theorem kind_default_discrete {β : Type} (b : β) :
    kindLookup none = DISCRETE
      ∧ (BaseSentimentAnalyzer.init b).kind = DISCRETE
      ∧ (kindLookup none = DISCRETE ∨ kindLookup none = CONTINUOUS) :=
  ⟨rfl, rfl, Or.inl rfl⟩

/-- C9: the two analyzer-kind discriminant values are distinct, so branching
on kind always distinguishes a categorical analyzer from a numeric one. -/
theorem discrete_ne_continuous : DISCRETE ≠ CONTINUOUS := by
  decide

/-- C10: the base train modifies only the trained flag: kind and the
subclass-owned state are unchanged, the flag becomes true; and construction
leaves kind at the class default DISCRETE and the subclass state untouched. -/
theorem train_frame {β : Type} (b : β) (s : BaseSentimentAnalyzer β) :
    (s.train).kind = s.kind
      ∧ (s.train).ext = s.ext
      ∧ (s.train)._trained = true
      ∧ (BaseSentimentAnalyzer.init b).kind = DISCRETE
      ∧ (BaseSentimentAnalyzer.init b).ext = b :=
  ⟨rfl, rfl, rfl, rfl, rfl⟩

theorem analyzeN_fixed {β : Type} :
    ∀ (n : Nat) (p : BaseSentimentAnalyzer β × Nat), p.1._trained = true →
      BaseSentimentAnalyzer.analyzeN n p = p
  | 0, _, _ => rfl
  | Nat.succ n, p, h => by
    have hc : BaseSentimentAnalyzer.analyzeCount p = p := by
      simp [BaseSentimentAnalyzer.analyzeCount, h]
    show BaseSentimentAnalyzer.analyzeN n (BaseSentimentAnalyzer.analyzeCount p) = p
    rw [hc]
    exact analyzeN_fixed n p h

/-- C2: on a fresh instance the first analyze call invokes train, bumping the
side-effect counter from 0 to 1 and setting the flag, and across any sequence
of at least one analyze call the counter ends at exactly 1: train is invoked
exactly once and never again. -/
theorem analyze_trains_exactly_once {β : Type} (b : β) (n : Nat) (h : 1 ≤ n) :
    BaseSentimentAnalyzer.analyzeCount (BaseSentimentAnalyzer.init b, 0)
        = ((BaseSentimentAnalyzer.init b).train, 1)
      ∧ (BaseSentimentAnalyzer.analyzeN n (BaseSentimentAnalyzer.init b, 0)).2 = 1
      ∧ (BaseSentimentAnalyzer.analyzeN n (BaseSentimentAnalyzer.init b, 0)).1._trained
          = true := by
  obtain ⟨m, rfl⟩ : ∃ m, n = m + 1 := ⟨n - 1, (Nat.succ_pred_eq_of_pos h).symm⟩
  have h2 : BaseSentimentAnalyzer.analyzeN (m + 1) (BaseSentimentAnalyzer.init b, 0)
      = BaseSentimentAnalyzer.analyzeN m ((BaseSentimentAnalyzer.init b).train, 1) := rfl
  rw [h2, analyzeN_fixed m _ rfl]
  exact ⟨rfl, rfl, rfl⟩

/-- Witness for C2: two analyze calls on a fresh instance leave the counter
at exactly 1. -/
theorem analyze_trains_exactly_once_witness :
    1 ≤ 2
      ∧ (BaseSentimentAnalyzer.analyzeCount (BaseSentimentAnalyzer.init (0 : Nat), 0)
            = ((BaseSentimentAnalyzer.init (0 : Nat)).train, 1)
          ∧ (BaseSentimentAnalyzer.analyzeN 2 (BaseSentimentAnalyzer.init (0 : Nat), 0)).2 = 1
          ∧ (BaseSentimentAnalyzer.analyzeN 2 (BaseSentimentAnalyzer.init (0 : Nat), 0)).1._trained
              = true) :=
  ⟨by decide, analyze_trains_exactly_once (0 : Nat) 2 (by decide)⟩

/-- C3: when the train override raises on an untrained instance, analyze
propagates exactly the exception and state produced by train, adding no
handling and no flag write of its own; in particular when train mutated
nothing before raising, the instance is still untrained. -/
theorem analyze_propagates_train_failure {β ε : Type}
    (tr : BaseSentimentAnalyzer β →
      Except (ε × BaseSentimentAnalyzer β) (BaseSentimentAnalyzer β))
    (s : BaseSentimentAnalyzer β) (e : ε) (t : BaseSentimentAnalyzer β)
    (hu : s._trained = false) (hf : tr s = Except.error (e, t)) :
    BaseSentimentAnalyzer.analyzeE tr s = Except.error (e, t)
      ∧ (t = s → t._trained = false) := by
  constructor
  · simp [BaseSentimentAnalyzer.analyzeE, hu, hf]
  · intro ht
    rw [ht]
    exact hu

/-- Witness for C3: the always-raising train override on a fresh instance. -/
theorem analyze_propagates_train_failure_witness :
    (BaseSentimentAnalyzer.init ())._trained = false
      ∧ (BaseSentimentAnalyzer.analyzeE trFail (BaseSentimentAnalyzer.init ())
            = Except.error (("training failed", BaseSentimentAnalyzer.init ()))
          ∧ (BaseSentimentAnalyzer.init () = BaseSentimentAnalyzer.init ()
              → (BaseSentimentAnalyzer.init ())._trained = false)) :=
  ⟨rfl, analyze_propagates_train_failure trFail (BaseSentimentAnalyzer.init ())
      "training failed" (BaseSentimentAnalyzer.init ()) rfl rfl⟩

/-- C4: immediately after construction the trained flag is false; and on any
untrained instance the analyze step makes the flag true only through a
completed training call: the step is exactly a train call, visible as the
counter increment. -/
theorem trained_false_at_init {β : Type} (b : β) (s : BaseSentimentAnalyzer β)
    (c : Nat) (h : s._trained = false) :
    (BaseSentimentAnalyzer.init b)._trained = false
      ∧ BaseSentimentAnalyzer.analyzeCount (s, c) = (s.train, c + 1) := by
  refine ⟨rfl, ?_⟩
  simp [BaseSentimentAnalyzer.analyzeCount, h]

/-- Witness for C4: a fresh instance whose first analyze step trains it. -/
theorem trained_false_at_init_witness :
    (BaseSentimentAnalyzer.init (0 : Nat))._trained = false
      ∧ ((BaseSentimentAnalyzer.init (0 : Nat))._trained = false
          ∧ BaseSentimentAnalyzer.analyzeCount (BaseSentimentAnalyzer.init (0 : Nat), 0)
              = ((BaseSentimentAnalyzer.init (0 : Nat)).train, 0 + 1)) :=
  ⟨rfl, trained_false_at_init 0 (BaseSentimentAnalyzer.init 0) 0 rfl⟩

theorem apply_preserves_trained {β : Type} (op : Op) (s : BaseSentimentAnalyzer β)
    (h : s._trained = true) : (op.apply s)._trained = true := by
  cases op with
  | train => rfl
  | analyze =>
    show ((s.analyze).1)._trained = true
    simp [BaseSentimentAnalyzer.analyze, h]

/-- C6: the trained state is terminal: once the flag is set, no sequence of
contract operations (train and analyze, in any order and number) ever
unsets it. -/
theorem trained_is_terminal {β : Type} :
    ∀ (ops : List Op) (s : BaseSentimentAnalyzer β), s._trained = true →
      (runOps ops s)._trained = true
  | [], _, h => h
  | op :: ops, s, h =>
    trained_is_terminal ops (op.apply s) (apply_preserves_trained op s h)

/-- Witness for C6: a trained instance stays trained across an
analyze-train-analyze sequence. -/
theorem trained_is_terminal_witness :
    ((BaseSentimentAnalyzer.init (0 : Nat)).train)._trained = true
      ∧ (runOps [Op.analyze, Op.train, Op.analyze]
            ((BaseSentimentAnalyzer.init (0 : Nat)).train))._trained = true :=
  ⟨rfl, trained_is_terminal [Op.analyze, Op.train, Op.analyze]
      ((BaseSentimentAnalyzer.init (0 : Nat)).train) rfl⟩

/-- C8 counterexample: calling itokenize on the whitespace test double with
"the quick fox" emits one token-computation event per token during the
itokenize call itself, before the first element is ever requested, because
the generator expression evaluates its tokenize call eagerly at creation;
so the creation-time trace is not empty, refuting the claim that no token
is computed before the first element is requested. -/
theorem itokenize_computes_before_first_request :
    (wsTokenizer.itokenizeTr "the quick fox" ()).2
        = [Ev.computeTok "the", Ev.computeTok "quick", Ev.computeTok "fox"]
      ∧ (wsTokenizer.itokenizeTr "the quick fox" ()).2 ≠ [] :=
  ⟨by decide, by decide⟩

/-- C8 amended: the generator returned by the default itokenize is
single-pass and non-restartable and hands out each token only when the
consumer requests it, with exactly one yield per request and permanent
exhaustion on the empty cursor; but the underlying tokenize call is
evaluated eagerly during the itokenize call, so the whole token list is
computed at generator creation, before the first request. -/
theorem itokenize_eager_creation_lazy_yield {α : Type} (tk : BaseTokenizer α)
    (text : String) (args : α) (g : PyGen String) (t : String) (g2 : PyGen String)
    (h : PyGen.next g = some (t, g2)) :
    (tk.itokenizeTr text args).2 = (tk.tokenize text args).map Ev.computeTok
      ∧ (tk.itokenizeTr text args).1 = tk.itokenize text args
      ∧ (tk.itokenize text args).materialize = tk.tokenize text args
      ∧ (PyGen.nextTr g).2 = [Ev.yieldTok t]
      ∧ g.remaining = t :: g2.remaining
      ∧ PyGen.next (PyGen.mk ([] : List String)) = none := by
  refine ⟨rfl, rfl, materialize_mk _, ?_, next_some h, rfl⟩
  unfold PyGen.nextTr
  rw [h]

/-- Witness for C8 amended: the whitespace test double on "the quick fox"
and a concrete two-element generator state. -/
theorem itokenize_eager_creation_lazy_yield_witness :
    PyGen.next (PyGen.mk ["a", "b"]) = some ("a", PyGen.mk ["b"])
      ∧ ((wsTokenizer.itokenizeTr "the quick fox" ()).2
            = (wsTokenizer.tokenize "the quick fox" ()).map Ev.computeTok
          ∧ (wsTokenizer.itokenizeTr "the quick fox" ()).1
              = wsTokenizer.itokenize "the quick fox" ()
          ∧ (wsTokenizer.itokenize "the quick fox" ()).materialize
              = wsTokenizer.tokenize "the quick fox" ()
          ∧ (PyGen.nextTr (PyGen.mk ["a", "b"])).2 = [Ev.yieldTok "a"]
          ∧ (PyGen.mk ["a", "b"]).remaining = "a" :: (PyGen.mk ["b"]).remaining
          ∧ PyGen.next (PyGen.mk ([] : List String)) = none) :=
  ⟨rfl, itokenize_eager_creation_lazy_yield wsTokenizer "the quick fox" ()
      (PyGen.mk ["a", "b"]) "a" (PyGen.mk ["b"]) rfl⟩

end TextblobBase
